import Mathlib

/-!
Shallow embedding of the todv2 dialog-orchestration engine.

The Python source keeps all session state in a `DialogState` TypedDict whose
`dialog_context` member is a free-form dict read with `.get(key)` /
`.get(key, default)`.  We embed the dict as a structure of `Option` fields
(`none` = key absent) and translate each `.get` at its use site.  Python dicts
with string keys become association lists with dict update semantics
(`dset` updates an existing key in place, otherwise appends).  Python
truthiness on parameter values (`not d.get(p)`) is `truthy` below: a value is
falsy when the key is absent or the string is empty.

External LLM calls (intent classification, parameter extraction, response
generation) and the mock travel tools' payloads are inputs of the embedded
functions: each agent function takes the collaborator's structured result as
an explicit argument and the rest of the agent's logic is translated from the
source.  Python's `set` iteration order (used by the batch scheduler on
`set(tools)`) is determinized as first-occurrence order of the tool list.
-/

namespace Todv2

/-- Dict lookup: first entry with the given key (Python dicts are dup-free). -/
def aget {α : Type} (d : List (String × α)) (k : String) : Option α :=
  (d.find? (fun kv => kv.1 == k)).map (fun kv => kv.2)

/-- Dict write `d[k] = v`: update the existing key, else append. -/
def dset {α : Type} (d : List (String × α)) (k : String) (v : α) : List (String × α) :=
  if d.any (fun kv => kv.1 == k) then
    d.map (fun kv => if kv.1 == k then (k, v) else kv)
  else
    d ++ [(k, v)]

/-- Python `{**a, **b}`: entries of `b` written over `a`. -/
def dmerge {α : Type} (a b : List (String × α)) : List (String × α) :=
  b.foldl (fun acc kv => dset acc kv.1 kv.2) a

/-- Python truthiness of `d.get(p)` for string values: absent and `""` are falsy. -/
def truthy : Option String → Bool
  | none => false
  | some v => v != ""

inductive Role
  | user
  | assistant
deriving DecidableEq, Repr

structure Msg where
  role : Role
  content : String
deriving DecidableEq, Repr

/-- One entry of `paused_intents` (supervisor_agent.py, `_execute_intent_switch`). -/
structure PausedIntent where
  intent : String
  parameters : List (String × String)
  tools : List String
  paused_at : String
deriving DecidableEq, Repr

/-- One value of the `tool_results` dict: the result dict returned by
`_execute_tool` (or the validation-error dict), plus the `success` flag the
executor writes over it (tool_executing_agent.py line 86/95). -/
structure ToolRes where
  payload : List (String × String)
  success : Bool
deriving DecidableEq, Repr

/-- The `dialog_context` dict, one optional field per key the source reads or
writes; `none` models an absent key. -/
structure DialogContext where
  awaiting_confirmation : Option (String × String) := none
  retry_counts : Option (List (String × Nat)) := none
  max_retries : Option Nat := none
  required_parameters : Option (List String) := none
  last_missing_params : Option (List String) := none
  needs_clarification : Option Bool := none
  last_response_type : Option String := none
  tool_execution_order : Option (List (List String)) := none
  current_tool_batch : Option Nat := none
  completed_tools : Option (List String) := none
  all_tools_completed : Option Bool := none
  end_conversation : Option Bool := none
  intent_switched : Option Bool := none
  previous_intent : Option String := none
  parameter_collection_failed : Option Bool := none
  failed_parameter : Option String := none
  execution_error : Option String := none
  execution_blocked : Option Bool := none
  missing_parameters : Option (List String) := none
  batch_execution_success : Option Bool := none
  error : Option String := none
deriving DecidableEq, Repr

/-- schemas/dialog_state.py `DialogState`. -/
structure DialogState where
  messages : List Msg := []
  current_intent : Option String := none
  paused_intents : List PausedIntent := []
  extracted_parameters : List (String × String) := []
  selected_tools : List String := []
  tool_results : List (String × ToolRes) := []
  dialog_context : DialogContext := {}
deriving DecidableEq, Repr

/-- The routing destinations of the LangGraph `Command(goto=...)` values. -/
inductive Dest
  | supervisor
  | tool_choosing
  | input_parameter
  | tool_executing
  | generation
  | endTurn
deriving DecidableEq, Repr

/-! Section: system_config.py : tool and intent configuration -/

/-- config/system_config.py `TOOLS` entry: declared parameter names, the
`requires` dependency tags and the `returns` output tag. -/
structure ToolConfig where
  parameters : List String
  requires : List String := []
  returns : String
deriving DecidableEq, Repr

/-- config/system_config.py `INTENTS` entry parameter schema record. -/
structure ParamCfg where
  ptype : String
  question : String
  required : Bool
deriving DecidableEq, Repr

structure IntentConfig where
  tools : List String
  parameters : List (String × ParamCfg)
deriving DecidableEq, Repr

def TOOLS : List (String × ToolConfig) :=
  [ ("search_flights", { parameters := ["origin", "destination", "date"],
                         returns := "flight_options" }),
    ("book_flight", { parameters := ["origin", "destination", "date"],
                      requires := ["flight_options"],
                      returns := "booking_confirmation" }),
    ("search_hotels", { parameters := ["destination", "days"],
                        returns := "hotel_options" }),
    ("book_hotel", { parameters := ["destination", "days"],
                     requires := ["hotel_options"],
                     returns := "hotel_booking" }),
    ("get_weather", { parameters := ["destination", "date"],
                      returns := "weather_info" }) ]

def INTENTS : List (String × IntentConfig) :=
  [ ("book_flight",
      { tools := ["search_flights", "book_flight"],
        parameters :=
          [ ("origin", { ptype := "string",
                         question := "Which city or airport are you departing from?",
                         required := true }),
            ("destination", { ptype := "string",
                              question := "Where would you like to fly to?",
                              required := true }),
            ("date", { ptype := "date",
                       question := "What date would you like to travel?",
                       required := true }) ] }),
    ("book_hotel",
      { tools := ["search_hotels", "book_hotel"],
        parameters :=
          [ ("destination", { ptype := "string",
                              question := "Which city do you need a hotel in?",
                              required := true }),
            ("days", { ptype := "int",
                       question := "How many days will you be staying?",
                       required := true }) ] }),
    ("plan_vacation",
      { tools := ["search_flights", "search_hotels", "get_weather",
                  "book_flight", "book_hotel"],
        parameters :=
          [ ("origin", { ptype := "string",
                         question := "Where are you traveling from?",
                         required := true }),
            ("destination", { ptype := "string",
                              question := "Where would you like to go on vacation?",
                              required := true }),
            ("date", { ptype := "date",
                       question := "When would you like to start your vacation?",
                       required := true }),
            ("days", { ptype := "int",
                       question := "How many days will your vacation be?",
                       required := true }) ] }) ]

def get_intent_config (intent_name : String) : Option IntentConfig :=
  aget INTENTS intent_name

def get_tool_config (tool_name : String) : Option ToolConfig :=
  aget TOOLS tool_name

/-! Section: system_config.py : `get_tool_execution_order` (the batch scheduler)

The source loops over `remaining_tools = set(tools)`; we determinize the set's
iteration order as the first-occurrence order of the tool list
(`List.eraseDups`), so `list(remaining_tools)[0]` is the head of the remaining
list.  The `while remaining_tools` loop removes at least one tool per
iteration, so `tools.length` steps of fuel always suffice. -/

/-- The source's per-tool readiness test: a configured tool all of whose
`requires` tags occur among the *tool names* already scheduled; a tool with no
configuration is skipped (`continue`). -/
def batch_ready (cfg : List (String × ToolConfig)) (scheduled : List String)
    (tool : String) : Bool :=
  match aget cfg tool with
  | none => false
  | some tc => tc.requires.all (fun dep => scheduled.contains dep)

def schedule_aux (cfg : List (String × ToolConfig)) :
    Nat → List (List String) → List String → List (List String)
  | 0, order, _ => order
  | _, order, [] => order
  | Nat.succ fuel, order, r :: rs =>
    let scheduled := order.flatten
    let ready := (r :: rs).filter (batch_ready cfg scheduled)
    let batch := if ready.isEmpty then [r] else ready
    schedule_aux cfg fuel (order ++ [batch])
      ((r :: rs).filter (fun t => !(batch.contains t)))

/-- The source's `get_tool_execution_order`, generic in the tool configuration table and
the intent's tool list. -/
def get_tool_execution_order_gen (cfg : List (String × ToolConfig))
    (tools : List String) : List (List String) :=
  if tools.isEmpty then [] else schedule_aux cfg tools.length [] tools.eraseDups

/-- config/system_config.py `get_tool_execution_order` on the repo's tables. -/
def get_tool_execution_order (intent_name : String) : List (List String) :=
  match get_intent_config intent_name with
  | none => []
  | some ic => get_tool_execution_order_gen TOOLS ic.tools

/-- Does every tool of every batch have each of its `requires` tags `returns`-produced
by some tool of a strictly earlier batch?  (The ordering property of spec §8.) -/
def deps_satisfied_by (cfg : List (String × ToolConfig)) (earlier : List String)
    (tool : String) : Bool :=
  (match aget cfg tool with
   | none => []
   | some tc => tc.requires).all
    (fun dep => earlier.any (fun u =>
      match aget cfg u with
      | none => false
      | some uc => uc.returns == dep))

def orderingOK (cfg : List (String × ToolConfig)) (order : List (List String)) : Bool :=
  order.enum.all (fun p =>
    p.2.all (fun t => deps_satisfied_by cfg ((order.take p.1).flatten) t))

/-- Each tool of the (deduplicated) tool list occurs in exactly one batch, and
batches contain only tools of the list. -/
def eachToolOnce (tools : List String) (order : List (List String)) : Bool :=
  (tools.eraseDups.all (fun t => order.flatten.count t == 1)) &&
    (order.flatten.all (fun t => tools.eraseDups.contains t))

/-- Acyclicity witness: a linear order of the tools in which every tool's
dependency tags are produced by strictly earlier tools. -/
def linearOK (cfg : List (String × ToolConfig)) (lin : List String) : Bool :=
  lin.enum.all (fun p => deps_satisfied_by cfg (lin.take p.1) p.2)

end Todv2

namespace Todv2

/-! Section: String helpers for the supervisor's substring checks (Python `in`) -/

/-- Whether `needle` is a prefix of `hay` (over character lists). -/
def charsStart : List Char → List Char → Bool
  | [], _ => true
  | _ :: _, [] => false
  | a :: n, b :: h => a == b && charsStart n h

/-- Whether `needle` occurs as a contiguous substring of `hay` (Python `needle in hay`). -/
def charsSub (n : List Char) : List Char → Bool
  | [] => charsStart n []
  | c :: t => charsStart n (c :: t) || charsSub n t

def containsSub (needle hay : String) : Bool :=
  charsSub needle.toList hay.toList

/-! Section: tools/tool_registry.py : `validate_tool_parameters` -/

/-- Returns the `{"valid": ..., "error": ...}` dict as a pair.  The source
returns on the first missing declared parameter, in declaration order. -/
def validate_tool_parameters (tool_name : String) (parameters : List (String × String)) :
    Bool × Option String :=
  match get_tool_config tool_name with
  | none => (false, some ("Unknown tool: " ++ tool_name))
  | some tc =>
    match tc.parameters.find? (fun p => !truthy (aget parameters p)) with
    | some p => (false, some ("Missing required parameter: " ++ p))
    | none => (true, none)

/-! Section: agents/tool_executing_agent.py : `ToolExecutingAgent.__call__`

`_execute_tool` catches every exception internally and always returns a dict
(an `{"error": ...}` payload when the tool raised or could not be loaded), so
the returned result map is an input here (`execTool`); the validation logic,
the `{**result, "success": True}` marking, the batch-success flag and the
cursor update are translated from the source. -/

def tool_executing_call (execTool : String → List (String × String) → List (String × String))
    (s : DialogState) : Dest × DialogState :=
  let parameters := s.extracted_parameters
  let ctx := s.dialog_context
  let required_parameters := ctx.required_parameters.getD []
  if s.selected_tools.isEmpty then
    (Dest.supervisor,
     { s with tool_results := [],
              dialog_context := { ctx with execution_error := some "No tools selected" } })
  else
    let missing_params := required_parameters.filter (fun p => !truthy (aget parameters p))
    if !missing_params.isEmpty then
      (Dest.supervisor,
       { s with dialog_context :=
          { ctx with execution_blocked := some true,
                     missing_parameters := some missing_params,
                     last_response_type := some "parameter_validation_failed" } })
    else
      let tool_execution_order := ctx.tool_execution_order.getD []
      let current_batch := ctx.current_tool_batch.getD 0
      let completed_tools := ctx.completed_tools.getD []
      if tool_execution_order.length ≤ current_batch then
        (Dest.supervisor,
         { s with dialog_context := { ctx with all_tools_completed := some true } })
      else
        let current_batch_tools := (tool_execution_order.drop current_batch).headD []
        let folded := current_batch_tools.foldl
          (fun (acc : List (String × ToolRes) × Bool × List String) tool_name =>
            match validate_tool_parameters tool_name parameters with
            | (false, err) =>
              (dset acc.1 tool_name
                { payload := [("error", "Parameter validation failed: " ++ err.getD "")],
                  success := false },
               false, acc.2.2)
            | (true, _) =>
              (dset acc.1 tool_name { payload := execTool tool_name parameters,
                                      success := true },
               acc.2.1, acc.2.2 ++ [tool_name]))
          ([], true, completed_tools)
        let batch_results := folded.1
        let batch_success := folded.2.1
        let completed' := folded.2.2
        let all_results := dmerge s.tool_results batch_results
        let next_batch := if batch_success then current_batch + 1 else current_batch
        (Dest.supervisor,
         { s with tool_results := all_results,
                  dialog_context :=
                    { ctx with current_tool_batch := some next_batch,
                               completed_tools := some completed',
                               batch_execution_success := some batch_success } })

/-! Section: agents/generation_agent.py : `GenerationAgent.__call__`

The generated prose (success summary or acknowledgment, including the
templated fallbacks) is an input (`genText` / `ackText`). -/

def generation_call (genText ackText : String) (s : DialogState) : Dest × DialogState :=
  let passThrough :=
    match s.messages.getLast? with
    | some m => m.role == Role.assistant
    | none => false
  if passThrough then
    (Dest.endTurn, s)
  else if !s.tool_results.isEmpty then
    let all_tools_completed := s.dialog_context.all_tools_completed.getD false
    let next_destination := if all_tools_completed then Dest.endTurn else Dest.supervisor
    (next_destination,
     { s with messages := s.messages ++ [{ role := Role.assistant, content := genText }] })
  else
    (Dest.supervisor,
     { s with messages := s.messages ++ [{ role := Role.assistant, content := ackText }] })

end Todv2

namespace Todv2

/-! Section: agents/supervisor_agent.py -/

/-- Python truthiness of `current_intent` (`None` and `""` are falsy). -/
def intentTruthy : Option String → Bool
  | none => false
  | some v => v != ""

/-- Embeds `SupervisorAgent._decide_next_action`: the string-valued routing decision,
translated branch by branch from the source's sequence of early returns. -/
def decide_next_action (s : DialogState) : String :=
  let current_intent := s.current_intent
  let selected_tools := s.selected_tools
  let tool_results := s.tool_results
  let extracted_parameters := s.extracted_parameters
  let ctx := s.dialog_context
  if intentTruthy current_intent && selected_tools.isEmpty then
    "tool_choosing"
  else
    let required_params := ctx.required_parameters.getD []
    let missing_params := required_params.filter (fun p => !truthy (aget extracted_parameters p))
    if !selected_tools.isEmpty && intentTruthy current_intent && !missing_params.isEmpty then
      "input_parameter"
    else if !selected_tools.isEmpty && tool_results.isEmpty &&
        required_params.all (fun p => truthy (aget extracted_parameters p)) then
      "tool_executing"
    else if !tool_results.isEmpty then
      if ctx.last_response_type == some "generated" then "__end__" else "generation"
    else
      "__end__"

/-- Embeds `SupervisorAgent._execute_intent_switch`: pause the outgoing intent
(dropping any prior paused entry with the same name), clear the working state,
replace `dialog_context` by the fresh dict of the source, and route to the
tool-choosing agent. -/
def execute_intent_switch (s : DialogState) (from_intent to_intent : String) :
    Dest × DialogState :=
  let current_params := s.extracted_parameters
  let current_tools := s.selected_tools
  let paused_intent : PausedIntent :=
    { intent := from_intent, parameters := current_params,
      tools := current_tools, paused_at := "parameter_collection" }
  let updated_paused :=
    (s.paused_intents.filter (fun pi => pi.intent != from_intent)) ++ [paused_intent]
  (Dest.tool_choosing,
   { s with current_intent := some to_intent,
            extracted_parameters := [],
            selected_tools := [],
            tool_results := [],
            paused_intents := updated_paused,
            dialog_context :=
              { intent_switched := some true,
                previous_intent := some from_intent,
                awaiting_confirmation := none,
                retry_counts := some [],
                max_retries := some 5,
                last_response_type := some "intent_switch" } })

/-- Python `str.lower()` (ASCII case folding, characterwise). -/
def py_lower (s : String) : String :=
  ⟨s.data.map Char.toLower⟩

def isSpaceChar (c : Char) : Bool :=
  c == ' ' || c == '\t' || c == '\n' || c == '\r' || c == Char.ofNat 11 || c == Char.ofNat 12

/-- Python `str.strip()`: whitespace removed from both ends. -/
def py_strip (s : String) : String :=
  ⟨((s.data.dropWhile isSpaceChar).reverse.dropWhile isSpaceChar).reverse⟩

def affirmWords : List String := ["yes", "y", "switch", "pause"]
def negWords : List String := ["no", "n", "continue", "keep"]

def reaskText : String :=
  "Please respond with 'yes' to switch or 'no' to continue with the current task."

/-- Embeds `SupervisorAgent._handle_intent_switch_confirmation`.  Python's
`.lower().strip()` on the reply is `py_strip (py_lower ...)`. -/
def handle_intent_switch_confirmation (s : DialogState)
    (awaiting_confirmation : String × String) : Dest × DialogState :=
  match s.messages.getLast? with
  | none => (Dest.endTurn, s)
  | some m =>
    if m.role != Role.user then (Dest.endTurn, s)
    else
      let user_response := py_strip (py_lower m.content)
      let from_intent := awaiting_confirmation.1
      let to_intent := awaiting_confirmation.2
      if affirmWords.any (fun word => containsSub word user_response) then
        execute_intent_switch s from_intent to_intent
      else if negWords.any (fun word => containsSub word user_response) then
        (Dest.input_parameter,
         { s with dialog_context :=
            { s.dialog_context with awaiting_confirmation := none,
                                    last_response_type := some "user_input" } })
      else
        (Dest.endTurn,
         { s with messages := s.messages ++ [{ role := Role.assistant, content := reaskText }] })

end Todv2

namespace Todv2

/-! Section: agents/input_parameter_agent.py -/

/-- config/system_config.py `get_parameter_question`. -/
def get_parameter_question (intent_name : Option String) (param_name : String) : String :=
  let fallback := "Could you please provide the " ++ param_name ++ "?"
  match intent_name with
  | none => fallback
  | some i =>
    match get_intent_config i with
    | none => fallback
    | some ic =>
      match aget ic.parameters param_name with
      | none => fallback
      | some pc => pc.question

/-- Embeds `InputParameterAgent._generate_clarification_question`. -/
def generate_clarification_question (intent_name : Option String)
    (current_params : List (String × String)) (missing_params : List String) : String :=
  match missing_params with
  | [] => "I need some additional information to help you. Could you please provide more details?"
  | [p] => "I need one more detail: " ++ get_parameter_question intent_name p
  | [p, q] =>
    "I need two more details: " ++ get_parameter_question intent_name p ++ " and " ++
      get_parameter_question intent_name q
  | _ =>
    let questions := missing_params.map (get_parameter_question intent_name)
    "I need a few more details: " ++ String.intercalate ", " questions.dropLast ++
      ", and " ++ (questions.getLast?.getD "")

/-- Embeds `InputParameterAgent._extract_parameters`, given the map the extraction
LLM returned (`raw`; an LLM error or malformed JSON is `raw = []`).  The
source returns `{}` for an unknown (or absent) intent and otherwise keeps only
the returned keys that occur in `required_params`. -/
def extract_parameters (raw : List (String × String)) (intent : Option String)
    (required_params : List String) : List (String × String) :=
  match intent with
  | none => []
  | some i =>
    match get_intent_config i with
    | none => []
    | some _ => raw.filter (fun kv => required_params.contains kv.1)

/-- Which of the four `return Command(...)` sites of
`InputParameterAgent.__call__` produced the result. -/
inductive SlotBranch
  | noUser
  | failed
  | clarified
  | progressed
deriving DecidableEq, Repr

structure SlotResult where
  goto : Dest
  state : DialogState
  branch : SlotBranch
deriving DecidableEq, Repr

def failureText (param : String) : String :=
  "I've tried several times to get the " ++ param ++
    " from you, but I'm still not clear on what you need. Could you please start over with a complete request? For example: 'Book a flight from New York to Paris on December 25th'"

/-- The scan of `reversed(messages)` for the latest user message. -/
def latest_user_message (s : DialogState) : Option String :=
  (s.messages.reverse.find? (fun m => m.role == Role.user)).map Msg.content

/-- The accepted extraction result of a slot-filling turn: what
`_extract_parameters` returns for the turn's state and the extraction LLM's
parsed reply `raw`. -/
def accepted_extraction (raw : List (String × String)) (s : DialogState) :
    List (String × String) :=
  extract_parameters raw s.current_intent (s.dialog_context.required_parameters.getD [])

/-- Embeds `InputParameterAgent.__call__`, with the extraction LLM's parsed reply as
the `raw` input.  The source scans `reversed(messages)` for the latest user
message and treats an absent (or empty, hence falsy) one as "no user
message"; the retry-ceiling check runs before the progress check. -/
def input_parameter_call (raw : List (String × String)) (s : DialogState) : SlotResult :=
  let ctx := s.dialog_context
  let required_parameters := ctx.required_parameters.getD []
  let current_params := s.extracted_parameters
  let user_message := latest_user_message s
  if !truthy user_message then
    { goto := Dest.supervisor,
      state := { s with dialog_context := { error := some "No user message to process" } },
      branch := SlotBranch.noUser }
  else
    let extracted_params := accepted_extraction raw s
    let updated_params := dmerge current_params extracted_params
    let missing_params := required_parameters.filter (fun p => !truthy (aget updated_params p))
    let retry_counts := ctx.retry_counts.getD []
    let max_retries := ctx.max_retries.getD 5
    if missing_params.isEmpty then
      { goto := Dest.supervisor,
        state := { s with extracted_parameters := updated_params,
                          dialog_context :=
                            { ctx with last_missing_params := some missing_params,
                                       needs_clarification := some false,
                                       last_response_type := some "parameter_progress" } },
        branch := SlotBranch.progressed }
    else
      match missing_params.find? (fun p => max_retries ≤ (aget retry_counts p).getD 0) with
      | some param =>
        { goto := Dest.generation,
          state := { s with extracted_parameters := updated_params,
                            dialog_context :=
                              { ctx with parameter_collection_failed := some true,
                                         failed_parameter := some param,
                                         last_response_type := some "parameter_failure" },
                            messages := s.messages ++
                              [{ role := Role.assistant, content := failureText param }] },
          branch := SlotBranch.failed }
      | none =>
        if extracted_params.isEmpty then
          let clarification_msg :=
            generate_clarification_question s.current_intent updated_params missing_params
          let updated_retry_counts := missing_params.foldl
            (fun acc p => dset acc p ((aget acc p).getD 0 + 1)) retry_counts
          { goto := Dest.generation,
            state := { s with extracted_parameters := updated_params,
                              dialog_context :=
                                { ctx with needs_clarification := some true,
                                           last_missing_params := some missing_params,
                                           retry_counts := some updated_retry_counts,
                                           last_response_type := some "clarification" },
                              messages := s.messages ++
                                [{ role := Role.assistant, content := clarification_msg }] },
            branch := SlotBranch.clarified }
        else
          { goto := Dest.supervisor,
            state := { s with extracted_parameters := updated_params,
                              dialog_context :=
                                { ctx with last_missing_params := some missing_params,
                                           needs_clarification := some false,
                                           last_response_type := some "parameter_progress" } },
            branch := SlotBranch.progressed }

end Todv2

namespace Todv2

/-! Section: Concrete session fixtures used by the theorems -/

/-- A generic tool table with an acyclic, fully-produced dependency map:
`beta` consumes the tag `alpha` produces, `gamma` consumes the tag `beta`
produces.  `[alpha, beta, gamma]` is a valid linear order. -/
def c3_cfg : List (String × ToolConfig) :=
  [ ("alpha", { parameters := [], returns := "tag_alpha" }),
    ("gamma", { parameters := [], requires := ["tag_beta"], returns := "tag_gamma" }),
    ("beta", { parameters := [], requires := ["tag_alpha"], returns := "tag_beta" }) ]

def c3_tools : List String := ["alpha", "gamma", "beta"]

/-- Slot-filling fixture: intent `book_hotel`, `destination` already filled,
`days` still missing, fresh retry counts. -/
def c4_s0 : DialogState :=
  { messages := [{ role := Role.user, content := "I need a hotel in Paris" }],
    current_intent := some "book_hotel",
    extracted_parameters := [("destination", "Paris")],
    selected_tools := ["search_hotels", "book_hotel"],
    dialog_context := { required_parameters := some ["destination", "days"],
                        tool_execution_order := some [["search_hotels"], ["book_hotel"]],
                        current_tool_batch := some 0, completed_tools := some [] } }

/-- One further slot-filling turn: the user replies, the extraction LLM
returns nothing (`raw = []`). -/
def noProgressTurn (reply : String) (s : DialogState) : SlotResult :=
  input_parameter_call []
    { s with messages := s.messages ++ [{ role := Role.user, content := reply }] }

def c4_turn1 : SlotResult := input_parameter_call [] c4_s0
def c4_turn2 : SlotResult := noProgressTurn "it should be nice" c4_turn1.state
def c4_turn3 : SlotResult := noProgressTurn "it should be nice" c4_turn2.state
def c4_turn4 : SlotResult := noProgressTurn "it should be nice" c4_turn3.state
def c4_turn5 : SlotResult := noProgressTurn "it should be nice" c4_turn4.state
def c4_turn6 : SlotResult := noProgressTurn "it should be nice" c4_turn5.state

/-- A turn that extracts a new value for `destination` while the retry count
of the still-missing `days` already sits at the ceiling. -/
def c4_progress_turn : SlotResult :=
  input_parameter_call [("destination", "Paris")]
    { c4_s0 with extracted_parameters := [],
                 dialog_context := { c4_s0.dialog_context with retry_counts := some [("days", 5)] } }

/-- Flight-booking session ready to execute: tools selected, every required
parameter present, both batches scheduled, nothing executed yet. -/
def sReady : DialogState :=
  { messages := [{ role := Role.user, content := "Book a flight from New York to Paris on Dec 25" }],
    current_intent := some "book_flight",
    extracted_parameters := [("origin", "New York"), ("destination", "Paris"), ("date", "Dec 25")],
    selected_tools := ["search_flights", "book_flight"],
    dialog_context := { required_parameters := some ["origin", "destination", "date"],
                        tool_execution_order := some [["search_flights"], ["book_flight"]],
                        current_tool_batch := some 0, completed_tools := some [],
                        last_missing_params := some [], needs_clarification := some false,
                        last_response_type := some "parameter_progress" } }

/-- A tool-invocation oracle on which every invoked tool returns a success
payload (no tool raises). -/
def okExec : String → List (String × String) → List (String × String) :=
  fun _ _ => [("status", "success")]

/-- The session after the first batch `[search_flights]` executed and
succeeded: its result is recorded and the cursor moved to batch 1 of 2. -/
def sStar : DialogState := (tool_executing_call okExec sReady).2

/-- Confirmation-pending session whose reply "definitely not" contains the
substring "y". -/
def sDef : DialogState :=
  { messages := [{ role := Role.user, content := "definitely not" }],
    current_intent := some "book_flight",
    extracted_parameters := [("origin", "NYC")],
    selected_tools := ["search_flights", "book_flight"],
    dialog_context := { awaiting_confirmation := some ("book_flight", "book_hotel"),
                        required_parameters := some ["origin", "destination", "date"] } }

/-- Confirmation-pending session switching to `book_hotel`, which already has
a paused entry carrying saved parameters and tools. -/
def sC2 : DialogState :=
  { messages := [{ role := Role.user, content := "yes" }],
    current_intent := some "book_flight",
    extracted_parameters := [("origin", "NYC")],
    selected_tools := ["search_flights", "book_flight"],
    paused_intents := [{ intent := "book_hotel",
                         parameters := [("destination", "Rome"), ("days", "4")],
                         tools := ["search_hotels", "book_hotel"],
                         paused_at := "parameter_collection" }],
    dialog_context := { awaiting_confirmation := some ("book_flight", "book_hotel") } }

def c2_result : Dest × DialogState := execute_intent_switch sC2 "book_flight" "book_hotel"

/-- Slot-filling turn whose extraction result names `origin`, a required
parameter that is already filled (hence outside this turn's missing set). -/
def c6_result : SlotResult :=
  input_parameter_call [("origin", "LA")]
    { sReady with extracted_parameters := [("origin", "NYC")] }

/-- Executor fixture whose batch tool `book_hotel` fails per-tool parameter
validation (its declared parameters are absent) while the intent-level
required-parameter gate passes. -/
def sVF : DialogState :=
  { messages := [{ role := Role.user, content := "go" }],
    current_intent := some "book_hotel",
    selected_tools := ["search_hotels", "book_hotel"],
    extracted_parameters := [],
    dialog_context := { required_parameters := some [],
                        tool_execution_order := some [["book_hotel"]],
                        current_tool_batch := some 0, completed_tools := some [] } }

/-- Executor fixture at batch `["book_hotel"]` with all parameters present.
In CPython this batch's invocation always fails: `_execute_tool` calls
`book_hotel(destination=..., days=...)` but the function signature is
`book_hotel(city, days)`, so a `TypeError` is raised, caught inside
`_execute_tool`, and returned as an `{"error": ...}` payload. -/
def sBH : DialogState :=
  { messages := [{ role := Role.user, content := "book it" }],
    current_intent := some "book_hotel",
    selected_tools := ["search_hotels", "book_hotel"],
    extracted_parameters := [("destination", "Paris"), ("days", "3")],
    tool_results := [("search_hotels", { payload := [("status", "success")], success := true })],
    dialog_context := { required_parameters := some ["destination", "days"],
                        tool_execution_order := some [["search_hotels"], ["book_hotel"]],
                        current_tool_batch := some 1,
                        completed_tools := some ["search_hotels"] } }

/-- The payload `_execute_tool` returns for the `book_hotel` `TypeError`. -/
def bhErrExec : String → List (String × String) → List (String × String) :=
  fun _ _ =>
    [("error", "Tool execution failed: book_hotel() got an unexpected keyword argument 'destination'")]

end Todv2

namespace Todv2

/-! Section: Association-list lemmas -/

theorem find?_key_update {α : Type} (d : List (String × α)) (k k' : String) (v : α)
    (h : k' ≠ k) :
    (d.map (fun kv => if kv.1 == k then (k, v) else kv)).find? (fun kv => kv.1 == k') =
      d.find? (fun kv => kv.1 == k') := by
  rw [List.find?_map]
  have hp : ((fun kv : String × α => kv.1 == k') ∘ fun kv => if kv.1 == k then (k, v) else kv)
      = fun kv : String × α => kv.1 == k' := by
    funext kv
    by_cases hk : kv.1 = k
    · simp [Function.comp, hk]
    · simp [Function.comp, beq_eq_false_iff_ne.2 hk]
  rw [hp]
  cases he : d.find? (fun kv : String × α => kv.1 == k') with
  | none => rfl
  | some e =>
    have h1 : e.1 = k' := by simpa using List.find?_some he
    have h2 : (e.1 == k) = false := beq_eq_false_iff_ne.2 (h1 ▸ h)
    simp [h2]
    intro hek
    exact absurd (h1 ▸ hek) h

theorem aget_dset_ne {α : Type} (d : List (String × α)) {k k' : String} (v : α)
    (h : k' ≠ k) : aget (dset d k v) k' = aget d k' := by
  unfold aget dset
  by_cases hd : (d.any fun kv => kv.1 == k) = true
  · rw [if_pos hd, find?_key_update d k k' v h]
  · rw [if_neg hd, List.find?_append]
    have h1 : ([(k, v)].find? fun kv : String × α => kv.1 == k') = none := by
      simp [List.find?, beq_eq_false_iff_ne.2 (Ne.symm h)]
    rw [h1]
    cases d.find? (fun kv : String × α => kv.1 == k') <;> rfl

theorem aget_dmerge_ne {α : Type} (b : List (String × α)) :
    ∀ (a : List (String × α)) (k : String), (∀ kv ∈ b, kv.1 ≠ k) →
      aget (dmerge a b) k = aget a k := by
  induction b with
  | nil => intro a k _; rfl
  | cons kv b ih =>
    intro a k h
    have h1 : kv.1 ≠ k := h kv (List.mem_cons_self kv b)
    have h2 : ∀ x ∈ b, x.1 ≠ k := fun x hx => h x (List.mem_cons_of_mem kv hx)
    show aget (dmerge (dset a kv.1 kv.2) b) k = aget a k
    rw [ih (dset a kv.1 kv.2) k h2, aget_dset_ne a kv.2 (Ne.symm h1)]

theorem extract_parameters_keys (raw : List (String × String)) (intent : Option String)
    (req : List String) :
    ∀ kv ∈ extract_parameters raw intent req, req.contains kv.1 = true := by
  intro kv hkv
  cases intent with
  | none => exact absurd hkv (List.not_mem_nil kv)
  | some i =>
    have hkv' : kv ∈ (match get_intent_config i with
        | none => ([] : List (String × String))
        | some _ => raw.filter (fun kv => req.contains kv.1)) := hkv
    cases hc : get_intent_config i with
    | none => rw [hc] at hkv'; exact absurd hkv' (List.not_mem_nil kv)
    | some ic => rw [hc] at hkv'; exact (List.mem_filter.1 hkv').2

theorem accepted_extraction_keys (raw : List (String × String)) (s : DialogState) :
    ∀ kv ∈ accepted_extraction raw s,
      (s.dialog_context.required_parameters.getD []).contains kv.1 = true :=
  extract_parameters_keys raw s.current_intent (s.dialog_context.required_parameters.getD [])

end Todv2

namespace Todv2

/-! Section: Claim theorems -/

/-- Claim C5: on a confirmed intent switch from `a` to `b`, the resulting
session records `a`'s parameters and selected tools as the unique paused entry
for `a` (replacing any prior one), clears the working parameter/tool/result
state, resets the retry counts, clears the pending confirmation, sets the
current intent to `b`, and routes to the tool-choosing (batch scheduler)
agent. -/
theorem intent_switch_resets_and_pauses (s : DialogState) (a b : String) :
    (execute_intent_switch s a b).1 = Dest.tool_choosing ∧
    (execute_intent_switch s a b).2.current_intent = some b ∧
    (execute_intent_switch s a b).2.extracted_parameters = [] ∧
    (execute_intent_switch s a b).2.selected_tools = [] ∧
    (execute_intent_switch s a b).2.tool_results = [] ∧
    (execute_intent_switch s a b).2.dialog_context.retry_counts = some [] ∧
    (execute_intent_switch s a b).2.dialog_context.awaiting_confirmation = none ∧
    (execute_intent_switch s a b).2.paused_intents.filter (fun pi => pi.intent == a) =
      [{ intent := a, parameters := s.extracted_parameters,
         tools := s.selected_tools, paused_at := "parameter_collection" }] := by
  refine ⟨rfl, rfl, rfl, rfl, rfl, rfl, rfl, ?_⟩
  show ((s.paused_intents.filter (fun pi : PausedIntent => pi.intent != a)) ++
      [({ intent := a, parameters := s.extracted_parameters,
          tools := s.selected_tools, paused_at := "parameter_collection" } : PausedIntent)]).filter
        (fun pi : PausedIntent => pi.intent == a) =
      [{ intent := a, parameters := s.extracted_parameters,
         tools := s.selected_tools, paused_at := "parameter_collection" }]
  rw [List.filter_append, List.filter_filter]
  have h0 : s.paused_intents.filter
      (fun pi => (pi.intent == a) && (pi.intent != a)) = [] := by
    have hc : ∀ pi ∈ s.paused_intents,
        ((pi.intent == a) && (pi.intent != a)) = (fun _ => false) pi := by
      intro pi _
      cases hpi : pi.intent == a <;> simp [bne, hpi]
    rw [List.filter_congr hc]
    exact List.filter_false s.paused_intents
  rw [h0]
  simp [List.filter]

/-- Claim C2 (counterexample): confirming a switch to `book_hotel`, which
already has a paused entry saving `destination = Rome`, `days = 4` and its
tools, does not restore that entry: the working parameters and tools come out
empty and the `book_hotel` entry is still in `paused_intents`. -/
theorem switch_to_paused_intent_not_restored :
    c2_result.2.extracted_parameters = [] ∧
    c2_result.2.selected_tools = [] ∧
    (c2_result.2.paused_intents.map PausedIntent.intent) = ["book_hotel", "book_flight"] ∧
    aget ((c2_result.2.paused_intents.headD
      { intent := "", parameters := [], tools := [], paused_at := "" }).parameters)
        "destination" = some "Rome" := by
  refine ⟨rfl, rfl, ?_, rfl⟩
  rfl

/-- Claim C2 (amended): a confirmed switch from `a` to `b` never restores a
paused entry for `b`: the new working state is empty (slot-filling restarts
from scratch) and `paused_intents` is exactly the old set minus entries for
`a` plus the fresh entry recording `a` — entries for `b` are left in place
untouched. -/
theorem intent_switch_restores_nothing (s : DialogState) (a b : String) :
    (execute_intent_switch s a b).2.extracted_parameters = [] ∧
    (execute_intent_switch s a b).2.selected_tools = [] ∧
    (execute_intent_switch s a b).2.paused_intents =
      (s.paused_intents.filter (fun pi => pi.intent != a)) ++
        [{ intent := a, parameters := s.extracted_parameters,
           tools := s.selected_tools, paused_at := "parameter_collection" }] :=
  ⟨rfl, rfl, rfl⟩

/-- Claim C9: when the last message of the session is already an assistant
message (a clarification or failure notice appended earlier in the turn), the
generation agent is a pure pass-through: it routes to conversation end and
returns the state unchanged, appending nothing. -/
theorem composer_pass_through (genText ackText : String) (s : DialogState) (m : Msg)
    (hlast : s.messages.getLast? = some m) (hrole : m.role = Role.assistant) :
    generation_call genText ackText s = (Dest.endTurn, s) := by
  unfold generation_call
  rw [hlast]
  simp [hrole]

/-- Witness for `composer_pass_through` at a concrete session whose last
message is an assistant clarification. -/
theorem composer_pass_through_witness :
    generation_call "summary" "ack"
      { messages := [{ role := Role.user, content := "hi" },
                     { role := Role.assistant, content := "Which city?" }],
        current_intent := some "book_hotel" } =
      (Dest.endTurn,
       { messages := [{ role := Role.user, content := "hi" },
                      { role := Role.assistant, content := "Which city?" }],
         current_intent := some "book_hotel" }) :=
  composer_pass_through "summary" "ack" _ _ rfl rfl

end Todv2

namespace Todv2

/-- Claim C10: while an intent-switch confirmation is pending, a user reply is
treated as affirmative exactly when it contains one of the substrings "yes",
"y", "switch", "pause" (checked before the negative substrings), in which case
the switch executes (routing to tool choosing); a reply containing none of the
eight substrings re-asks the confirmation question, leaving the session state
(and hence the pending proposal) otherwise untouched.  In particular the reply
"definitely not" contains "y" and executes the switch. -/
theorem confirmation_reply_substring_matching :
    (∀ (s : DialogState) (m : Msg) (fi ti : String),
       s.messages.getLast? = some m → m.role = Role.user →
       (((handle_intent_switch_confirmation s (fi, ti)).1 = Dest.tool_choosing) ↔
         affirmWords.any (fun w => containsSub w (py_strip (py_lower m.content))) = true) ∧
       (affirmWords.any (fun w => containsSub w (py_strip (py_lower m.content))) = false →
        negWords.any (fun w => containsSub w (py_strip (py_lower m.content))) = false →
        handle_intent_switch_confirmation s (fi, ti) =
          (Dest.endTurn,
           { s with messages :=
              s.messages ++ [{ role := Role.assistant, content := reaskText }] })) ∧
       (affirmWords.any (fun w => containsSub w (py_strip (py_lower m.content))) = false →
        negWords.any (fun w => containsSub w (py_strip (py_lower m.content))) = true →
        handle_intent_switch_confirmation s (fi, ti) =
          (Dest.input_parameter,
           { s with dialog_context :=
              { s.dialog_context with awaiting_confirmation := none,
                                      last_response_type := some "user_input" } }))) ∧
    (handle_intent_switch_confirmation sDef ("book_flight", "book_hotel")).1 =
      Dest.tool_choosing ∧
    (handle_intent_switch_confirmation sDef ("book_flight", "book_hotel")).2.current_intent =
      some "book_hotel" := by
  refine ⟨?_, rfl, rfl⟩
  intro s m fi ti hlast hrole
  simp only [handle_intent_switch_confirmation, hlast, hrole, bne_self_eq_false,
    Bool.false_eq_true, if_false]
  by_cases haff : (affirmWords.any (fun w => containsSub w (py_strip (py_lower m.content)))) = true
  · simp [haff, execute_intent_switch]
  · have haff' : (affirmWords.any (fun w => containsSub w (py_strip (py_lower m.content)))) = false :=
      by simpa using haff
    by_cases hneg : (negWords.any (fun w => containsSub w (py_strip (py_lower m.content)))) = true
    · simp [haff', hneg]
    · have hneg' : (negWords.any (fun w => containsSub w (py_strip (py_lower m.content)))) = false :=
        by simpa using hneg
      simp [haff', hneg']

/-- Witness for `confirmation_reply_substring_matching`: at the concrete
pending-confirmation session whose last user reply is "definitely not", the
affirmative substring check fires and routing goes to tool choosing. -/
theorem confirmation_reply_substring_matching_witness :
    (handle_intent_switch_confirmation sDef ("book_flight", "book_hotel")).1 =
      Dest.tool_choosing :=
  ((confirmation_reply_substring_matching.1 sDef
      { role := Role.user, content := "definitely not" }
      "book_flight" "book_hotel" rfl rfl).1).mpr (by decide)

/-- Claim C3 (counterexample): a tool table whose dependency map is acyclic
and fully produced (`beta` consumes `alpha`'s tag, `gamma` consumes `beta`'s
tag; the linear order alpha-beta-gamma satisfies every dependency) on which
the scheduler emits `gamma`'s batch before `beta`'s: the ready test compares
dependency tags against scheduled tool names, never against produced tags, so
`gamma` is stall-forced ahead of its producer and the strictly-earlier-batch
property fails. -/
theorem scheduler_ordering_counterexample :
    linearOK c3_cfg ["alpha", "beta", "gamma"] = true ∧
    get_tool_execution_order_gen c3_cfg c3_tools = [["alpha"], ["gamma"], ["beta"]] ∧
    orderingOK c3_cfg (get_tool_execution_order_gen c3_cfg c3_tools) = false ∧
    eachToolOnce c3_tools (get_tool_execution_order_gen c3_cfg c3_tools) = true :=
  ⟨rfl, rfl, rfl, rfl⟩

/-- Claim C3 (amended): the scheduler's output always uses each tool exactly
once, and for the three configured intents of the repository the computed
batch sequences do place every dependency's producer in a strictly earlier
batch; but because the ready test matches dependency tags against scheduled
tool names, dependent tools are scheduled through the stall fallback, and the
strictly-earlier-batch guarantee does not extend to arbitrary acyclic
configurations. -/
theorem scheduler_correct_on_configured_intents :
    get_tool_execution_order "book_flight" = [["search_flights"], ["book_flight"]] ∧
    get_tool_execution_order "book_hotel" = [["search_hotels"], ["book_hotel"]] ∧
    get_tool_execution_order "plan_vacation" =
      [["search_flights", "search_hotels", "get_weather"], ["book_flight"], ["book_hotel"]] ∧
    (eachToolOnce ["search_flights", "book_flight"]
        (get_tool_execution_order "book_flight") = true ∧
     orderingOK TOOLS (get_tool_execution_order "book_flight") = true) ∧
    (eachToolOnce ["search_hotels", "book_hotel"]
        (get_tool_execution_order "book_hotel") = true ∧
     orderingOK TOOLS (get_tool_execution_order "book_hotel") = true) ∧
    (eachToolOnce ["search_flights", "search_hotels", "get_weather", "book_flight", "book_hotel"]
        (get_tool_execution_order "plan_vacation") = true ∧
     orderingOK TOOLS (get_tool_execution_order "plan_vacation") = true) :=
  ⟨rfl, rfl, rfl, ⟨rfl, rfl⟩, ⟨rfl, rfl⟩, ⟨rfl, rfl⟩⟩

/-- Claim C4 (counterexample): with `maxRetries = 5`, parameter `days` still
missing and five consecutive slot-filling turns in which extraction returns
nothing, every one of the five turns — including the fifth — emits a
clarification question; the fifth turn does not return the terminal failure
(the failure flag stays unset) even though its retry count reaches 5. -/
theorem retry_ceiling_fifth_turn_still_clarifies :
    c4_turn1.branch = SlotBranch.clarified ∧
    c4_turn2.branch = SlotBranch.clarified ∧
    c4_turn3.branch = SlotBranch.clarified ∧
    c4_turn4.branch = SlotBranch.clarified ∧
    c4_turn5.branch = SlotBranch.clarified ∧
    c4_turn5.state.dialog_context.retry_counts = some [("days", 5)] ∧
    c4_turn5.state.messages.getLast? =
      some { role := Role.assistant,
             content := "I need one more detail: How many days will you be staying?" } ∧
    c4_turn5.state.dialog_context.parameter_collection_failed = none :=
  ⟨rfl, rfl, rfl, rfl, rfl, rfl, rfl, rfl⟩

/-- Claim C4 (amended): the terminal failure for `days` is returned on the
sixth consecutive zero-progress turn — after five clarification questions —
when the retry count already equals `maxRetries` at the start of the turn;
and the failure outcome is not restricted to zero-progress turns: a turn
whose extraction accepts a new `destination` value still returns the failure
because the still-missing `days` has exhausted its retries. -/
theorem retry_ceiling_sixth_turn_fails :
    c4_turn6.branch = SlotBranch.failed ∧
    c4_turn6.goto = Dest.generation ∧
    c4_turn6.state.dialog_context.failed_parameter = some "days" ∧
    c4_turn6.state.dialog_context.parameter_collection_failed = some true ∧
    c4_turn6.state.messages.getLast? =
      some { role := Role.assistant, content := failureText "days" } ∧
    c4_turn6.state.dialog_context.retry_counts = some [("days", 5)] ∧
    c4_progress_turn.branch = SlotBranch.failed ∧
    c4_progress_turn.state.dialog_context.failed_parameter = some "days" ∧
    (accepted_extraction [("destination", "Paris")]
      { c4_s0 with extracted_parameters := [],
                   dialog_context :=
                     { c4_s0.dialog_context with
                        retry_counts := some [("days", 5)] } }).isEmpty = false :=
  ⟨rfl, rfl, rfl, rfl, rfl, rfl, rfl, rfl, rfl⟩

end Todv2

namespace Todv2

/-- Claim C6 (counterexample): with `origin` already filled as "NYC", an
extraction result returning `origin = "LA"` — a key outside this turn's
missing set — is not discarded: the slot filler merges it and overwrites the
stored value. -/
theorem extraction_overwrites_filled_parameter :
    aget c6_result.state.extracted_parameters "origin" = some "LA" ∧
    aget c6_result.state.extracted_parameters "origin" ≠ some "NYC" ∧
    c6_result.branch = SlotBranch.progressed :=
  ⟨rfl, by decide, rfl⟩

/-- Claim C6 (amended): the slot filler discards returned keys outside the
intent's required-parameter list — for any such key the stored value is
untouched — but keys inside the required list are merged even when they are
not missing this turn, so an already-filled required parameter can be
overwritten. -/
theorem extraction_discards_only_non_required_keys
    (raw : List (String × String)) (s : DialogState) (k : String)
    (h : (s.dialog_context.required_parameters.getD []).contains k = false) :
    aget (input_parameter_call raw s).state.extracted_parameters k =
      aget s.extracted_parameters k := by
  have hkeys : ∀ kv ∈ accepted_extraction raw s, kv.1 ≠ k := by
    intro kv hkv hEq
    have hco := accepted_extraction_keys raw s kv hkv
    rw [hEq, h] at hco
    exact Bool.noConfusion hco
  have hm : aget (dmerge s.extracted_parameters (accepted_extraction raw s)) k =
      aget s.extracted_parameters k :=
    aget_dmerge_ne (accepted_extraction raw s) s.extracted_parameters k hkeys
  simp only [input_parameter_call]
  split
  · rfl
  · split
    · exact hm
    · split
      · exact hm
      · split
        · exact hm
        · exact hm

/-- Witness for `extraction_discards_only_non_required_keys`: an extraction
result with the extraneous key "nonsense" leaves that key absent from the
stored parameters. -/
theorem extraction_discards_only_non_required_keys_witness :
    aget (input_parameter_call [("nonsense", "x"), ("days", "3")] c4_s0).state.extracted_parameters
        "nonsense" =
      aget c4_s0.extracted_parameters "nonsense" :=
  extraction_discards_only_non_required_keys [("nonsense", "x"), ("days", "3")] c4_s0
    "nonsense" (by decide)

/-- Helper: on any slot-filling turn with a (truthy) user message whose
accepted extraction is non-empty, retry counts are untouched, the
clarification branch is not taken, and the progressed branch appends no
message. -/
theorem slot_progress_core (raw : List (String × String)) (s : DialogState)
    (h1 : truthy (latest_user_message s) = true)
    (h2 : (accepted_extraction raw s).isEmpty = false) :
    (input_parameter_call raw s).state.dialog_context.retry_counts =
      s.dialog_context.retry_counts ∧
    (input_parameter_call raw s).branch ≠ SlotBranch.clarified ∧
    ((input_parameter_call raw s).branch = SlotBranch.progressed →
      (input_parameter_call raw s).state.messages = s.messages) := by
  simp only [input_parameter_call, h1, Bool.not_true, Bool.false_eq_true, if_false]
  split
  · exact ⟨rfl, by simp, fun _ => rfl⟩
  · split
    · exact ⟨rfl, by simp, fun hx => absurd hx (by simp)⟩
    · simp [h2]

/-- Claim C7: a slot-filling turn whose extraction yields at least one
accepted parameter value leaves every retry count unchanged and emits no
clarification question, even when some originally-missing parameters remain
missing; conversely, a turn that changes the retry counts is one whose
accepted extraction was empty. -/
theorem progress_turn_no_penalty (raw : List (String × String)) (s : DialogState)
    (h1 : truthy (latest_user_message s) = true)
    (h2 : (accepted_extraction raw s).isEmpty = false) :
    ((input_parameter_call raw s).state.dialog_context.retry_counts =
       s.dialog_context.retry_counts ∧
     (input_parameter_call raw s).branch ≠ SlotBranch.clarified ∧
     ((input_parameter_call raw s).branch = SlotBranch.progressed →
       (input_parameter_call raw s).state.messages = s.messages)) ∧
    ∀ (r : List (String × String)) (t : DialogState),
      truthy (latest_user_message t) = true →
      (input_parameter_call r t).state.dialog_context.retry_counts ≠
        t.dialog_context.retry_counts →
      accepted_extraction r t = [] := by
  refine ⟨slot_progress_core raw s h1 h2, ?_⟩
  intro r t h1' hch
  by_cases he : (accepted_extraction r t).isEmpty = false
  · exact absurd (slot_progress_core r t h1' he).1 hch
  · exact List.isEmpty_iff.1 (by simpa using he)

/-- Witness for `progress_turn_no_penalty`: on the flight-booking session an
extraction returning `origin = "Boston"` is accepted, retry counts stay
unchanged and no clarification is emitted. -/
theorem progress_turn_no_penalty_witness :
    (input_parameter_call [("origin", "Boston")] sReady).state.dialog_context.retry_counts =
      sReady.dialog_context.retry_counts ∧
    (input_parameter_call [("origin", "Boston")] sReady).branch ≠ SlotBranch.clarified ∧
    ((input_parameter_call [("origin", "Boston")] sReady).branch = SlotBranch.progressed →
      (input_parameter_call [("origin", "Boston")] sReady).state.messages = sReady.messages) :=
  (progress_turn_no_penalty [("origin", "Boston")] sReady (by decide) (by decide)).1

end Todv2

namespace Todv2

/-- Claim C1: from the ready flight-booking session the router does dispatch
to the tool executor, but once the first batch's results are recorded
(`sStar`: cursor 1 of 2 batches, all required parameters still present) the
router returns "generation" — and in general `_decide_next_action` can never
return "tool_executing" once `tool_results` is non-empty, because that branch
requires the results map to be empty.  The composer then routes back to the
supervisor (not all tools completed), the supervisor again picks
"generation", and the pass-through ends the turn, so the second batch never
executes and the claimed dispatch to the Tool Executor never happens. -/
theorem router_never_reaches_second_batch :
    (decide_next_action sReady = "tool_executing" ∧
     decide_next_action sStar = "generation" ∧
     sStar.dialog_context.current_tool_batch = some 1 ∧
     (sStar.dialog_context.tool_execution_order.getD []).length = 2 ∧
     (sStar.dialog_context.required_parameters.getD []).all
       (fun p => truthy (aget sStar.extracted_parameters p)) = true ∧
     sStar.tool_results ≠ [] ∧
     (generation_call "Your flight is booked." "ok" sStar).1 = Dest.supervisor ∧
     decide_next_action (generation_call "Your flight is booked." "ok" sStar).2 =
       "generation" ∧
     (generation_call "s" "a" (generation_call "Your flight is booked." "ok" sStar).2).1 =
       Dest.endTurn) ∧
    ∀ t : DialogState, t.tool_results ≠ [] → decide_next_action t ≠ "tool_executing" := by
  constructor
  · exact ⟨rfl, rfl, rfl, rfl, rfl, by decide, rfl, rfl, rfl⟩
  · intro t h
    have hne : t.tool_results.isEmpty = false := by
      cases ht : t.tool_results with
      | nil => exact absurd ht h
      | cons x l => rfl
    simp only [decide_next_action, hne, Bool.and_false, Bool.false_and]
    split_ifs <;> first | decide | (intro _; assumption)

/-- Witness for `router_never_reaches_second_batch`: at the concrete
post-batch-1 session the router cannot return "tool_executing". -/
theorem router_never_reaches_second_batch_witness :
    decide_next_action sStar ≠ "tool_executing" :=
  router_never_reaches_second_batch.2 sStar (by decide)

/-- Claim C8: after the executor processes a batch, the cursor advances iff
every tool of the batch passed parameter validation — for any invocation
outcome, including an error payload: at `sBH` (batch `["book_hotel"]`, all
parameters present) every oracle result is recorded with `success := true`
and the cursor moves from 1 to 2, in particular for the `TypeError` error
payload the real `book_hotel` call produces; whereas at `sVF` the per-tool
validation failure keeps the cursor at 0 and marks the batch failed. -/
theorem batch_cursor_advances_despite_execution_error :
    (∀ execTool : String → List (String × String) → List (String × String),
       (tool_executing_call execTool sBH).2.dialog_context.current_tool_batch = some 2 ∧
       (tool_executing_call execTool sBH).2.dialog_context.batch_execution_success =
         some true ∧
       aget (tool_executing_call execTool sBH).2.tool_results "book_hotel" =
         some { payload := execTool "book_hotel" sBH.extracted_parameters,
                success := true }) ∧
    aget (tool_executing_call bhErrExec sBH).2.tool_results "book_hotel" =
      some { payload :=
               [("error",
                 "Tool execution failed: book_hotel() got an unexpected keyword argument 'destination'")],
             success := true } ∧
    (tool_executing_call bhErrExec sBH).2.dialog_context.current_tool_batch = some 2 ∧
    (tool_executing_call okExec sVF).2.dialog_context.current_tool_batch = some 0 ∧
    (tool_executing_call okExec sVF).2.dialog_context.batch_execution_success = some false ∧
    aget (tool_executing_call okExec sVF).2.tool_results "book_hotel" =
      some { payload :=
               [("error", "Parameter validation failed: Missing required parameter: destination")],
             success := false } := by
  refine ⟨fun execTool => ⟨rfl, rfl, rfl⟩, rfl, rfl, rfl, rfl, rfl⟩

end Todv2

namespace Todv2

/-- Witness for `intent_switch_resets_and_pauses` at the concrete confirmed
switch from `book_flight` to `book_hotel`. -/
theorem intent_switch_resets_and_pauses_witness :
    (execute_intent_switch sC2 "book_flight" "book_hotel").1 = Dest.tool_choosing :=
  (intent_switch_resets_and_pauses sC2 "book_flight" "book_hotel").1

/-- Witness for `intent_switch_restores_nothing` at the concrete confirmed
switch from `book_flight` to the already-paused `book_hotel`. -/
theorem intent_switch_restores_nothing_witness :
    (execute_intent_switch sC2 "book_flight" "book_hotel").2.extracted_parameters = [] :=
  (intent_switch_restores_nothing sC2 "book_flight" "book_hotel").1

/-- Witness for `batch_cursor_advances_despite_execution_error` at the
concrete error-payload invocation outcome. -/
theorem batch_cursor_advances_despite_execution_error_witness :
    (tool_executing_call bhErrExec sBH).2.dialog_context.current_tool_batch = some 2 :=
  (batch_cursor_advances_despite_execution_error.1 bhErrExec).1

end Todv2
